import Mathlib

/-!
Shallow embedding of the Easy-biz AI service core (task lifecycle engine,
provider gateway, generation pipelines) and proofs about its behaviour.

Python dynamic values that can appear in task results, prompt mappings and
parsed provider responses are modelled by the `Json` inductive; Python dicts
by insertion-ordered association lists with overwrite-on-existing-key
semantics; raised exceptions by `Except String` carrying `str(e)`.
-/

set_option maxRecDepth 100000

namespace EasyBiz

/-- Model of a Python/JSON dynamic value as produced by `json.loads` and
passed around the pipelines. Integer literals parse to `num`, float literals
to `flt m e` (value `m * 10^e`); Python `json` additionally accepts the
constants `NaN`, `Infinity` and `-Infinity`, modelled by `nan` and `inf`. -/
inductive Json where
  | null : Json
  | bool (b : Bool) : Json
  | num (n : Int) : Json
  | flt (m : Int) (e : Int) : Json
  | nan : Json
  | inf (neg : Bool) : Json
  | str (s : String) : Json
  | arr (elems : List Json) : Json
  | obj (fields : List (String × Json)) : Json

/-- Python dicts with string keys are insertion-ordered maps. -/
abbrev PyDict := List (String × Json)

/-- Lookup of a key in an insertion-ordered map (dict membership / read). -/
def dictLookup {α : Type} : List (String × α) → String → Option α
  | [], _ => none
  | (k, v) :: rest, key => if k = key then some v else dictLookup rest key

/-- Python dict write `d[k] = v`: replaces the value in place when the key
exists (keeping its position), otherwise appends the new pair. -/
def dictSet {α : Type} : List (String × α) → String → α → List (String × α)
  | [], key, v => [(key, v)]
  | (k, w) :: rest, key, v =>
      if k = key then (key, v) :: rest else (k, w) :: dictSet rest key v

/-- Python `str(KeyError(k))` is the repr of the missing key. -/
def keyErrorStr (k : String) : String := "\x27" ++ k ++ "\x27"

/-- Python dict subscript `d[k]`: raises `KeyError(k)` when absent. -/
def dictGetItem (d : PyDict) (k : String) : Except String Json :=
  match dictLookup d k with
  | some v => .ok v
  | none => .error (keyErrorStr k)

/-- Python type name of a modelled dynamic value (used in TypeError and
AttributeError messages). -/
def pyTypeName : Json → String
  | .null => "NoneType"
  | .bool _ => "bool"
  | .num _ => "int"
  | .flt _ _ => "float"
  | .nan => "float"
  | .inf _ => "float"
  | .str _ => "str"
  | .arr _ => "list"
  | .obj _ => "dict"

/-- Escaping used inside the single-quoted Python repr of a string. -/
def pyEscapeChar (c : Char) : String :=
  if c = '\\' then "\\\\"
  else if c = '\x27' then "\\\x27"
  else if c = '\n' then "\\n"
  else if c = '\r' then "\\r"
  else if c = '\t' then "\\t"
  else String.mk [c]

/-- Python repr of a string: single-quoted with backslash escapes. -/
def pyReprStr (s : String) : String :=
  "\x27" ++ String.join (s.data.map pyEscapeChar) ++ "\x27"

mutual

/-- Python `repr` of a modelled dynamic value (floats rendered in mantissa
exponent form: exact binary float formatting is outside the model). -/
def pyRepr : Json → String
  | .null => "None"
  | .bool b => if b then "True" else "False"
  | .num n => toString n
  | .flt m e => toString m ++ "e" ++ toString e
  | .nan => "nan"
  | .inf neg => if neg then "-inf" else "inf"
  | .str s => pyReprStr s
  | .arr xs => "[" ++ pyReprList xs ++ "]"
  | .obj kvs => "\x7b" ++ pyReprObj kvs ++ "\x7d"

/-- Comma-joined reprs of list elements. -/
def pyReprList : List Json → String
  | [] => ""
  | [x] => pyRepr x
  | x :: y :: rest => pyRepr x ++ ", " ++ pyReprList (y :: rest)

/-- Comma-joined `key: value` reprs of dict entries. -/
def pyReprObj : List (String × Json) → String
  | [] => ""
  | [(k, v)] => pyReprStr k ++ ": " ++ pyRepr v
  | (k, v) :: p :: rest => pyReprStr k ++ ": " ++ pyRepr v ++ ", " ++ pyReprObj (p :: rest)

end

/-- Python `str(value)` as used by f-string interpolation: identity on
strings, `repr`-like rendering otherwise. -/
def pyStr : Json → String
  | .str s => s
  | j => pyRepr j

/-- Whitespace characters skipped by the JSON grammar. -/
def isJsonWs (c : Char) : Bool :=
  c = ' ' || c = '\t' || c = '\n' || c = '\r'

/-- Skip JSON whitespace. -/
def skipWs (cs : List Char) : List Char := cs.dropWhile isJsonWs

/-- Whitespace characters stripped by Python `str.strip()` (ASCII part). -/
def isPySpace (c : Char) : Bool :=
  c = ' ' || c = '\t' || c = '\n' || c = '\r' || c = '\x0b' || c = '\x0c'

/-- Python `str.strip()`: removes leading and trailing whitespace. -/
def pyStrip (s : String) : String :=
  String.mk (((s.data.dropWhile isPySpace).reverse.dropWhile isPySpace).reverse)

/-- Hexadecimal digit value, for \uXXXX escapes. -/
def hexVal (c : Char) : Option Nat :=
  if c.isDigit then some (c.toNat - 48)
  else if 'a' ≤ c ∧ c ≤ 'f' then some (c.toNat - 87)
  else if 'A' ≤ c ∧ c ≤ 'F' then some (c.toNat - 57)
  else none

/-- Body of a JSON string literal (opening quote already consumed): returns
the decoded string and the input after the closing quote. Unescaped control
characters are rejected, as Python json does in strict mode. -/
def parseStrAux : List Char → List Char → Option (String × List Char)
  | _, [] => none
  | acc, c :: rest =>
    if c = '"' then some (String.mk acc.reverse, rest)
    else if c = '\\' then
      match rest with
      | [] => none
      | e :: rest2 =>
        if e = '"' then parseStrAux ('"' :: acc) rest2
        else if e = '\\' then parseStrAux ('\\' :: acc) rest2
        else if e = '/' then parseStrAux ('/' :: acc) rest2
        else if e = 'b' then parseStrAux ('\x08' :: acc) rest2
        else if e = 'f' then parseStrAux ('\x0c' :: acc) rest2
        else if e = 'n' then parseStrAux ('\n' :: acc) rest2
        else if e = 'r' then parseStrAux ('\r' :: acc) rest2
        else if e = 't' then parseStrAux ('\t' :: acc) rest2
        else if e = 'u' then
          match rest2 with
          | h1 :: h2 :: h3 :: h4 :: rest3 =>
            match hexVal h1, hexVal h2, hexVal h3, hexVal h4 with
            | some a, some b, some c2, some d =>
                parseStrAux (Char.ofNat (((a * 16 + b) * 16 + c2) * 16 + d) :: acc) rest3
            | _, _, _, _ => none
          | _ => none
        else none
    else if c.toNat < 32 then none
    else parseStrAux (c :: acc) rest

/-- Longest leading run of decimal digits, with the remaining input. -/
def takeDigits : List Char → (List Char × List Char)
  | [] => ([], [])
  | c :: rest =>
      if c.isDigit then
        let p := takeDigits rest
        (c :: p.1, p.2)
      else ([], c :: rest)

/-- Decimal digits to a natural number. -/
def digitsToNat (ds : List Char) : Nat :=
  ds.foldl (fun n c => n * 10 + (c.toNat - 48)) 0

/-- Apply an optional leading minus sign. -/
def intSign (neg : Bool) (n : Nat) : Int :=
  if neg then -(n : Int) else (n : Int)

/-- Optional fraction and exponent after the integer part of a JSON number
(mirroring the json module's number regex: a malformed fraction or exponent
is simply not consumed). Integer literals give `num`, others `flt`. -/
def finishNumber (neg : Bool) (intDigits : List Char) (cs : List Char) :
    Option (Json × List Char) :=
  let fr : List Char × List Char :=
    match cs with
    | '.' :: d :: rest =>
        if d.isDigit then
          let p := takeDigits rest
          (d :: p.1, p.2)
        else ([], cs)
    | _ => ([], cs)
  let fracDigits := fr.1
  let cs2 := fr.2
  let ex : Option (Bool × List Char) × List Char :=
    match cs2 with
    | e :: '+' :: d :: rest =>
        if (e = 'e' ∨ e = 'E') ∧ d.isDigit then
          let p := takeDigits rest
          (some (false, d :: p.1), p.2)
        else (none, cs2)
    | e :: '-' :: d :: rest =>
        if (e = 'e' ∨ e = 'E') ∧ d.isDigit then
          let p := takeDigits rest
          (some (true, d :: p.1), p.2)
        else (none, cs2)
    | e :: d :: rest =>
        if (e = 'e' ∨ e = 'E') ∧ d.isDigit then
          let p := takeDigits rest
          (some (false, d :: p.1), p.2)
        else (none, cs2)
    | _ => (none, cs2)
  let cs3 := ex.2
  match ex.1 with
  | none =>
      if fracDigits.isEmpty then
        some (.num (intSign neg (digitsToNat intDigits)), cs3)
      else
        some (.flt (intSign neg (digitsToNat (intDigits ++ fracDigits)))
                (-(fracDigits.length : Int)), cs3)
  | some (expNeg, expDigits) =>
      let e0 : Int := intSign expNeg (digitsToNat expDigits)
      some (.flt (intSign neg (digitsToNat (intDigits ++ fracDigits)))
              (e0 - (fracDigits.length : Int)), cs3)

/-- JSON number literal: optional minus, then `0` or a nonzero-led digit
run, then optional fraction/exponent. -/
def parseNumber (cs : List Char) : Option (Json × List Char) :=
  let sp : Bool × List Char :=
    match cs with
    | '-' :: rest => (true, rest)
    | _ => (false, cs)
  match sp.2 with
  | [] => none
  | c :: rest =>
      if c = '0' then finishNumber sp.1 [c] rest
      else if c.isDigit then
        let p := takeDigits rest
        finishNumber sp.1 (c :: p.1) p.2
      else none

/-- Match a literal keyword at the start of the input. -/
def stripLitChars : List Char → List Char → Option (List Char)
  | [], cs => some cs
  | _ :: _, [] => none
  | p :: ps, c :: cs => if c = p then stripLitChars ps cs else none

/-- Try one JSON keyword constant. -/
def tryLit (lit : String) (j : Json) (cs : List Char) : Option (Json × List Char) :=
  (stripLitChars lit.data cs).map (fun r => (j, r))

/-- Comma-separated JSON values up to a closing bracket (the input starts at
the first element); the fuel bounds the number of elements. -/
def parseElemsWith (pv : List Char → Option (Json × List Char)) :
    Nat → List Char → Option (List Json × List Char)
  | 0, _ => none
  | n + 1, cs =>
    match pv cs with
    | none => none
    | some (v, rest) =>
      match skipWs rest with
      | ',' :: rest2 =>
          match parseElemsWith pv n rest2 with
          | some (vs, r) => some (v :: vs, r)
          | none => none
      | ']' :: rest2 => some ([v], rest2)
      | _ => none

/-- Comma-separated `"key": value` members up to a closing brace (the input
starts at the first member's key). -/
def parseMembersWith (pv : List Char → Option (Json × List Char)) :
    Nat → List Char → Option (List (String × Json) × List Char)
  | 0, _ => none
  | n + 1, cs =>
    match skipWs cs with
    | '"' :: rest =>
      match parseStrAux [] rest with
      | none => none
      | some (key, rest2) =>
        match skipWs rest2 with
        | ':' :: rest3 =>
          match pv rest3 with
          | none => none
          | some (v, rest4) =>
            match skipWs rest4 with
            | ',' :: rest5 =>
                match parseMembersWith pv n rest5 with
                | some (kvs, r) => some ((key, v) :: kvs, r)
                | none => none
            | '\x7d' :: rest5 => some ([(key, v)], rest5)
            | _ => none
        | _ => none
    | _ => none

/-- One JSON value (leading whitespace allowed), with the remaining input;
the fuel bounds nesting depth. Object members are collapsed into a dict the
way Python's `dict(pairs)` is: last duplicate value wins, first position. -/
def parseVal : Nat → List Char → Option (Json × List Char)
  | 0, _ => none
  | n + 1, cs =>
    match skipWs cs with
    | [] => none
    | c :: rest =>
      if c = '"' then
        (parseStrAux [] rest).map (fun p => (.str p.1, p.2))
      else if c = '[' then
        match skipWs rest with
        | ']' :: r2 => some (.arr [], r2)
        | cs2 =>
            (parseElemsWith (fun x => parseVal n x) (rest.length + 1) cs2).map
              (fun p => (.arr p.1, p.2))
      else if c = '\x7b' then
        match skipWs rest with
        | '\x7d' :: r2 => some (.obj [], r2)
        | cs2 =>
            (parseMembersWith (fun x => parseVal n x) (rest.length + 1) cs2).map
              (fun p =>
                (.obj (p.1.foldl (fun d kv => dictSet d kv.1 kv.2) []), p.2))
      else
        tryLit "null" .null (c :: rest) <|>
        tryLit "true" (.bool true) (c :: rest) <|>
        tryLit "false" (.bool false) (c :: rest) <|>
        tryLit "NaN" .nan (c :: rest) <|>
        tryLit "Infinity" (.inf false) (c :: rest) <|>
        tryLit "-Infinity" (.inf true) (c :: rest) <|>
        parseNumber (c :: rest)

/-- Model of Python `json.loads`: one JSON document, with only whitespace
allowed after it; `none` models a raised `JSONDecodeError`. -/
def parseJson (s : String) : Option Json :=
  match parseVal (s.length + 1) s.data with
  | some (v, rest) => if (skipWs rest).isEmpty then some v else none
  | none => none

/-- Embedding of `AIService._parse_ai_response` (ai_service.py): try to
parse the (stripped) provider output as JSON; on failure wrap the stripped
text as a plain-text record. -/
def parse_ai_response (response_text : String) : Json :=
  match parseJson (pyStrip response_text) with
  | some v => v
  | none =>
      .obj [("content", .str (pyStrip response_text)),
            ("type", .str "text_response")]

/-- Python dict subscript on a dynamic value, `value[k]`: `KeyError` on a
dict missing the key, `TypeError` on non-dicts. -/
def Json.getItem (j : Json) (k : String) : Except String Json :=
  match j with
  | .obj kvs => dictGetItem kvs k
  | .str _ => .error "string indices must be integers"
  | _ => .error ("\x27" ++ pyTypeName j ++ "\x27 object is not subscriptable")

/-- Python `value.get(k, default)` on a dynamic value: `AttributeError` when
the value is not a dict. -/
def Json.getD (j : Json) (k : String) (dflt : Json) : Except String Json :=
  match j with
  | .obj kvs =>
      match dictLookup kvs k with
      | some v => .ok v
      | none => .ok dflt
  | _ => .error ("\x27" ++ pyTypeName j ++ "\x27 object has no attribute \x27get\x27")

/-- Python dict display `\x7b**base, k: v\x7d` on a dynamic base value:
`TypeError` when the base is not a mapping. -/
def starMerge1 (base : Json) (k : String) (v : Json) : Except String Json :=
  match base with
  | .obj kvs => .ok (.obj (dictSet kvs k v))
  | _ => .error ("\x27" ++ pyTypeName base ++ "\x27 object is not a mapping")

/-- Python dict display `\x7b**a, **b\x7d` on dynamic values. -/
def starMerge2 (a b : Json) : Except String Json :=
  match a with
  | .obj kvs =>
    match b with
    | .obj kvs2 => .ok (.obj (kvs2.foldl (fun d kv => dictSet d kv.1 kv.2) kvs))
    | _ => .error ("\x27" ++ pyTypeName b ++ "\x27 object is not a mapping")
  | _ => .error ("\x27" ++ pyTypeName a ++ "\x27 object is not a mapping")

/-- AI-service credentials from `core/config.py` `Settings`: each key is an
`Optional[str]` defaulting to `None`. -/
structure Settings where
  OPENAI_API_KEY : Option String
  CLAUDE_API_KEY : Option String
  GEMINI_API_KEY : Option String

/-- Python truthiness of an `Optional[str]`: `None` and the empty string
are falsy. -/
def pyTruthy : Option String → Bool
  | none => false
  | some s => !(s == "")

/-- Capability flags computed once at gateway construction,
`AIService._check_available_models` (ai_service.py). -/
structure AvailableModels where
  openai_text : Bool
  claude_text : Bool
  gemini_text : Bool
  openai_image : Bool
  gemini_image : Bool

/-- Embedding of `AIService._check_available_models`. -/
def check_available_models (s : Settings) : AvailableModels :=
  { openai_text := pyTruthy s.OPENAI_API_KEY
    claude_text := pyTruthy s.CLAUDE_API_KEY
    gemini_text := pyTruthy s.GEMINI_API_KEY
    openai_image := pyTruthy s.OPENAI_API_KEY
    gemini_image := pyTruthy s.GEMINI_API_KEY }

/-- The external provider clients: each maps a full prompt to either the
raw response text (`.content` / `.text` / the image url) or a raised
error's `str(e)`. These stand for the langchain / google / openai SDK
calls, which are outside the embedded code. -/
structure Backends where
  openaiText : String → Except String String
  claudeText : String → Except String String
  geminiText : String → Except String String
  openaiImage : String → Except String String

/-- The gateway object: capability flags (computed at construction) plus
the provider clients. -/
structure AIService where
  available_models : AvailableModels
  backends : Backends

/-- Construction of the gateway, `AIService.__init__`. -/
def mkAIService (s : Settings) (b : Backends) : AIService :=
  { available_models := check_available_models s, backends := b }

/-- Embedding of `AIService._build_system_prompt`: every context field is
read with `.get` and a default (tone defaults to "professional", the rest
to empty), then interpolated into the fixed triple-quoted template. -/
def build_system_prompt (context : Json) : Except String String := do
  let business_name ← context.getD "business_name" (.str "")
  let industry ← context.getD "industry" (.str "")
  let tone ← context.getD "tone" (.str "professional")
  let audience ← context.getD "target_audience" (.str "")
  return "\n        You are a professional business content creator. Create high-quality, engaging content.\n\n        Business Context:\n        - Name: "
    ++ pyStr business_name
    ++ "\n        - Industry: "
    ++ pyStr industry
    ++ "\n        - Tone: "
    ++ pyStr tone
    ++ "\n        - Target Audience: "
    ++ pyStr audience
    ++ "\n\n        Provide responses in valid JSON format with appropriate structure for the requested content type.\n        Focus on creating practical, actionable business content that drives results.\n        "

/-- Embedding of `AIService._generate_with_openai`: system prompt plus user
request, sent to the client, response parsed. -/
def generate_with_openai (svc : AIService) (prompt : String) (context : Json) :
    Except String Json := do
  let system_prompt ← build_system_prompt context
  let full_prompt := system_prompt ++ "\n\nUser Request: " ++ prompt
  let response ← svc.backends.openaiText full_prompt
  return parse_ai_response response

/-- Embedding of `AIService._generate_with_claude`. -/
def generate_with_claude (svc : AIService) (prompt : String) (context : Json) :
    Except String Json := do
  let system_prompt ← build_system_prompt context
  let full_prompt := system_prompt ++ "\n\nUser Request: " ++ prompt
  let response ← svc.backends.claudeText full_prompt
  return parse_ai_response response

/-- Embedding of `AIService._generate_with_gemini`. -/
def generate_with_gemini (svc : AIService) (prompt : String) (context : Json) :
    Except String Json := do
  let system_prompt ← build_system_prompt context
  let full_prompt := system_prompt ++ "\n\nUser Request: " ++ prompt
  let response ← svc.backends.geminiText full_prompt
  return parse_ai_response response

/-- Embedding of `AIService.generate_text`: first-available backend in the
fixed priority order openai, claude, gemini; with none available an
exception with message "No text generation models available" is raised;
any failure is re-raised wrapped as "Text generation failed: ...". -/
def generate_text (svc : AIService) (prompt : String) (context : Json) :
    Except String Json :=
  let inner : Except String Json :=
    if svc.available_models.openai_text then generate_with_openai svc prompt context
    else if svc.available_models.claude_text then generate_with_claude svc prompt context
    else if svc.available_models.gemini_text then generate_with_gemini svc prompt context
    else .error "No text generation models available"
  match inner with
  | .ok v => .ok v
  | .error e => .error ("Text generation failed: " ++ e)

/-- Embedding of `AIService._generate_image_with_openai`: style-enhanced
prompt to the image client, result packaged with url, description, style. -/
def generate_image_with_openai (svc : AIService) (description style : Json) :
    Except String Json := do
  let enhanced_prompt :=
    "Professional " ++ pyStr style ++ " style: " ++ pyStr description
      ++ ". Clean, modern business design."
  let url ← svc.backends.openaiImage enhanced_prompt
  return .obj [("image_url", .str url), ("description", description), ("style", style)]

/-- Embedding of `AIService._generate_image_with_gemini`: calls the gemini
client on an enhanced prompt, then returns a placeholder url record. -/
def generate_image_with_gemini (svc : AIService) (description style : Json) :
    Except String Json := do
  let enhanced_prompt :=
    "Create a professional " ++ pyStr style ++ " style image: " ++ pyStr description
  let _ ← svc.backends.geminiText enhanced_prompt
  return .obj [("image_url", .str "gemini_generated_image_url"),
               ("description", description), ("style", style)]

/-- Embedding of `AIService.generate_image`: first-available image backend
(openai then gemini); with none available an exception with message "No
image generation models available" is raised; any failure is re-raised
wrapped as "Image generation failed: ...". The style argument defaults to
"professional" at call sites that omit it. -/
def generate_image (svc : AIService) (description style : Json) :
    Except String Json :=
  let inner : Except String Json :=
    if svc.available_models.openai_image then
      generate_image_with_openai svc description style
    else if svc.available_models.gemini_image then
      generate_image_with_gemini svc description style
    else .error "No image generation models available"
  match inner with
  | .ok v => .ok v
  | .error e => .error ("Image generation failed: " ++ e)

/-- Embedding of `AIService.can_generate_images`. -/
def can_generate_images (svc : AIService) : Bool :=
  svc.available_models.openai_image || svc.available_models.gemini_image

/-- Task lifecycle states from `modals/schemas.py` `TaskStatus`. -/
inductive TaskStatus where
  | PENDING
  | PROCESSING
  | COMPLETED
  | FAILED
deriving DecidableEq

/-- One record of `TaskService.active_tasks` (task_service.py). The
creation timestamp is an abstract tick; results are dynamic values. -/
structure TaskRec where
  status : TaskStatus
  created_at : Nat
  result : Option Json
  error : Option String

/-- The task store: the `active_tasks` dict. -/
abbrev TaskStore := List (String × TaskRec)

/-- Embedding of `TaskService.create_task`: inserts a fresh PENDING record
under the given identifier (the uuid4 value and the current time are
external inputs, passed as arguments). Total: it cannot fail. -/
def create_task (store : TaskStore) (task_id : String) (now : Nat) : TaskStore :=
  dictSet store task_id
    { status := .PENDING, created_at := now, result := none, error := none }

/-- Embedding of `TaskService.update_task`: when the identifier is present,
replaces status/result/error on its record (`created_at` is untouched);
otherwise the call is a silent no-op. Arguments that Python defaults to
`None` are passed explicitly. -/
def update_task (store : TaskStore) (task_id : String) (status : TaskStatus)
    (result : Option Json) (error : Option String) : TaskStore :=
  match dictLookup store task_id with
  | some rec =>
      dictSet store task_id
        { rec with status := status, result := result, error := error }
  | none => store

/-- Embedding of `TaskService.get_task`: `active_tasks.get(task_id)`. -/
def get_task (store : TaskStore) (task_id : String) : Option TaskRec :=
  dictLookup store task_id

/-- One recorded `update_task` call issued by a pipeline (its status,
result and error arguments). -/
structure UpdateCall where
  status : TaskStatus
  result : Option Json
  error : Option String

/-- The `update_task(task_id, TaskStatus.PROCESSING)` call that opens every
pipeline's try block (result and error default to None). -/
def processingCall : UpdateCall :=
  { status := .PROCESSING, result := none, error := none }

/-- Common outer shape of all four `_process_*` coroutines
(content_service.py): the PROCESSING update is the first statement of the
try block and cannot fail; the rest of the body either returns a result
(one COMPLETED update) or raises (caught once, one FAILED update carrying
`str(e)`). -/
def pipelineWrap (body : Except String Json) : List UpdateCall :=
  processingCall ::
    (match body with
     | .ok result => [{ status := .COMPLETED, result := some result, error := none }]
     | .error e => [{ status := .FAILED, result := none, error := some e }])

/-- Python `logo_result` slot as stored in the brand-kit result dict. -/
def optJson : Option Json → Json
  | some j => j
  | none => .null

/-- The brand-identity user prompt of `_process_brand_kit`. -/
def brandIdentityPrompt : String :=
  "Create a complete brand identity including brand name, tagline, mission statement, brand values, tone of voice, color palette, and typography suggestions."

/-- The logo-description f-string of `_process_brand_kit`. -/
def logoPrompt (bn ind : Json) : String :=
  "Create a detailed logo description for " ++ pyStr bn ++ " in the "
    ++ pyStr ind ++ " industry. Focus on symbolism and professional design."

/-- The social-ideas user prompt of `_process_brand_kit`. -/
def socialIdeasPrompt : String :=
  "Create 5 social media post ideas with captions and hashtags for brand promotion."

/-- The per-platform posts f-string of `_process_social_media`. -/
def socialPostPrompt (platform : String) (bn : Json) : String :=
  "Create 3 engaging " ++ platform ++ " posts for " ++ pyStr bn
    ++ ". Include captions and relevant hashtags."

/-- The per-platform banner-description f-string of
`_process_social_media`. -/
def bannerDescPrompt (bn : Json) (platform : String) (ind : Json) : String :=
  "Professional social media banner for " ++ pyStr bn ++ " on " ++ platform
    ++ ". Business in " ++ pyStr ind ++ " industry."

/-- The per-section f-string of `_process_website_content`. -/
def sectionPrompt (sec : String) : String :=
  "Create engaging " ++ sec
    ++ " section content for a business website. Include headline, subheadline, and body content."

/-- The business-plan user prompt of `_process_business_plan`. -/
def businessPlanPrompt : String :=
  "Create a comprehensive business plan including executive summary, market analysis, marketing strategy, operational plan, and financial projections."

/-- Logo sub-step of `_process_brand_kit` (the body of its inner try):
f-string indexing of `business_name` and `industry`, logo description
generation, then logo image generation. -/
def brandKitLogoStep (svc : AIService) (prompts : Json) : Except String Json := do
  let bn ← prompts.getItem "business_name"
  let ind ← prompts.getItem "industry"
  let logo_description ← generate_text svc (logoPrompt bn ind) prompts
  let descArg ← logo_description.getD "content" logo_description
  let style ← prompts.getD "logo_style" (.str "modern")
  generate_image svc descArg style

/-- Try block body of `_process_brand_kit` after the PROCESSING update. A
logo-step failure is caught by the inner handler (which only prints), so
`logo_result` simply stays `None`; everything else propagates. -/
def brandKitBody (svc : AIService) (request_data : PyDict) (now : String) :
    Except String Json := do
  let prompts ← dictGetItem request_data "prompts"
  let brand_identity ← generate_text svc brandIdentityPrompt prompts
  let logo_result : Option Json :=
    if can_generate_images svc then
      match brandKitLogoStep svc prompts with
      | .ok img => some img
      | .error _ => none
    else none
  let social_ctx ← starMerge2 prompts brand_identity
  let social_content ← generate_text svc socialIdeasPrompt social_ctx
  return .obj [("brand_identity", brand_identity),
               ("logo", optJson logo_result),
               ("social_media", social_content),
               ("generated_at", .str now)]

/-- Embedding of `ContentService._process_brand_kit` as its sequence of
`update_task` calls. -/
def process_brand_kit (svc : AIService) (request_data : PyDict) (now : String) :
    List UpdateCall :=
  pipelineWrap (brandKitBody svc request_data now)

/-- The fixed platform list of `_process_social_media`. -/
def platforms : List String := ["Facebook", "Instagram", "Twitter", "LinkedIn"]

/-- The posts loop of `_process_social_media`: per platform, the f-string
indexes `business_name`, the context gains a `platform` key, and the
generated content is appended; there is no per-iteration handler, so the
first failure aborts the loop. -/
def socialPostsLoop (svc : AIService) (prompts : Json) :
    List String → Except String (List Json)
  | [] => .ok []
  | platform :: rest => do
      let bn ← prompts.getItem "business_name"
      let ctx ← starMerge1 prompts "platform" (.str platform)
      let post_content ← generate_text svc (socialPostPrompt platform bn) ctx
      let posts ← socialPostsLoop svc prompts rest
      return .obj [("platform", .str platform), ("content", post_content)] :: posts

/-- The banner loop of `_process_social_media`: the whole loop sits inside
one try, so a failure stops iteration; banners appended by earlier
iterations are kept, and the exception text is returned to the (printing
only) handler. -/
def bannerLoop (svc : AIService) (prompts : Json) (acc : List Json) :
    List String → (List Json × Option String)
  | [] => (acc, none)
  | platform :: rest =>
      match (do
        let bn ← prompts.getItem "business_name"
        let ind ← prompts.getItem "industry"
        generate_image svc (.str (bannerDescPrompt bn platform ind)) (.str "professional") :
          Except String Json) with
      | .ok banner =>
          bannerLoop svc prompts
            (acc ++ [.obj [("platform", .str platform), ("banner", banner)]]) rest
      | .error e => (acc, some e)

/-- Try block body of `_process_social_media` after the PROCESSING
update. -/
def socialMediaBody (svc : AIService) (request_data : PyDict) (now : String) :
    Except String Json := do
  let prompts ← dictGetItem request_data "prompts"
  let posts ← socialPostsLoop svc prompts platforms
  let banners : List Json :=
    if can_generate_images svc then (bannerLoop svc prompts [] platforms).1
    else []
  return .obj [("posts", .arr posts),
               ("banners", .arr banners),
               ("generated_at", .str now)]

/-- Embedding of `ContentService._process_social_media` as its sequence of
`update_task` calls. -/
def process_social_media (svc : AIService) (request_data : PyDict) (now : String) :
    List UpdateCall :=
  pipelineWrap (socialMediaBody svc request_data now)

/-- The fixed section list of `_process_website_content`. -/
def sections : List String := ["hero", "about", "services", "testimonials", "contact"]

/-- The sections loop of `_process_website_content`: per section, the
context gains a `section` key and the generated content is stored under the
section name; there is no per-iteration handler, so the first failure
aborts the loop. -/
def websiteLoop (svc : AIService) (prompts : Json) (acc : PyDict) :
    List String → Except String PyDict
  | [] => .ok acc
  | sec :: rest => do
      let ctx ← starMerge1 prompts "section" (.str sec)
      let section_content ← generate_text svc (sectionPrompt sec) ctx
      websiteLoop svc prompts (dictSet acc sec section_content) rest

/-- Try block body of `_process_website_content` after the PROCESSING
update. -/
def websiteContentBody (svc : AIService) (request_data : PyDict) (now : String) :
    Except String Json := do
  let prompts ← dictGetItem request_data "prompts"
  let website_content ← websiteLoop svc prompts [] sections
  return .obj [("website_content", .obj website_content),
               ("template_suggestions",
                 .arr [.str "modern", .str "professional", .str "minimalist", .str "corporate"]),
               ("generated_at", .str now)]

/-- Embedding of `ContentService._process_website_content` as its sequence
of `update_task` calls. -/
def process_website_content (svc : AIService) (request_data : PyDict) (now : String) :
    List UpdateCall :=
  pipelineWrap (websiteContentBody svc request_data now)

/-- Try block body of `_process_business_plan` after the PROCESSING
update. -/
def businessPlanBody (svc : AIService) (request_data : PyDict) (now : String) :
    Except String Json := do
  let prompts ← dictGetItem request_data "prompts"
  let business_plan ← generate_text svc businessPlanPrompt prompts
  return .obj [("business_plan", business_plan), ("generated_at", .str now)]

/-- Embedding of `ContentService._process_business_plan` as its sequence of
`update_task` calls. -/
def process_business_plan (svc : AIService) (request_data : PyDict) (now : String) :
    List UpdateCall :=
  pipelineWrap (businessPlanBody svc request_data now)

/-- Replay a pipeline's recorded `update_task` calls against a store. -/
def applyUpdates (store : TaskStore) (task_id : String) (calls : List UpdateCall) :
    TaskStore :=
  calls.foldl (fun s u => update_task s task_id u.status u.result u.error) store

/-- The successive snapshots of one task's record along a run: after
`create_task` and after each recorded `update_task` call. -/
def recordStates (store : TaskStore) (task_id : String) (t : Nat)
    (tr : List UpdateCall) : List (Option TaskRec) :=
  (List.scanl (fun s u => update_task s task_id u.status u.result u.error)
      (create_task store task_id t) tr).map
    (fun s => get_task s task_id)

/-- Prefix test on character lists (for building concrete provider
behaviours keyed on prompt contents). -/
def isPrefixChars : List Char → List Char → Bool
  | [], _ => true
  | _ :: _, [] => false
  | p :: ps, c :: cs => p = c && isPrefixChars ps cs

/-- Substring occurrence test on character lists. -/
def containsSub (needle : List Char) : List Char → Bool
  | [] => isPrefixChars needle []
  | c :: t => isPrefixChars needle (c :: t) || containsSub needle t

/-- Substring occurrence test on strings. -/
def strContains (hay needle : String) : Bool :=
  containsSub needle.data hay.data

/-- A provider client that always answers with fixed plain text. -/
def okBackend : String → Except String String := fun _ => .ok "All good"

/-- A provider client that always raises. -/
def downBackend : String → Except String String := fun _ => .error "provider down"

/-- A text client that raises exactly when the prompt mentions Instagram
(so the Instagram step of the social pipeline fails and all others
succeed). -/
def instagramFailBackend : String → Except String String :=
  fun p => if strContains p "Instagram" then .error "boom" else .ok "All good"

/-- Gateway with only claude credentials (text available, images not) whose
text client fails exactly on Instagram prompts. -/
def svcInstaFail : AIService :=
  mkAIService
    { OPENAI_API_KEY := none, CLAUDE_API_KEY := some "ck", GEMINI_API_KEY := none }
    { openaiText := downBackend, claudeText := instagramFailBackend,
      geminiText := downBackend, openaiImage := downBackend }

/-- Gateway with only claude credentials whose text client always fails. -/
def svcTextDown : AIService :=
  mkAIService
    { OPENAI_API_KEY := none, CLAUDE_API_KEY := some "ck", GEMINI_API_KEY := none }
    { openaiText := downBackend, claudeText := downBackend,
      geminiText := downBackend, openaiImage := downBackend }

/-- Gateway with openai credentials (text and images available): text
succeeds, image client always fails. -/
def svcImageDown : AIService :=
  mkAIService
    { OPENAI_API_KEY := some "ok", CLAUDE_API_KEY := none, GEMINI_API_KEY := none }
    { openaiText := okBackend, claudeText := downBackend,
      geminiText := downBackend, openaiImage := downBackend }

/-- Gateway with openai credentials: text succeeds, image client fails
exactly when the description mentions Instagram. -/
def svcBannerInstaFail : AIService :=
  mkAIService
    { OPENAI_API_KEY := some "ok", CLAUDE_API_KEY := none, GEMINI_API_KEY := none }
    { openaiText := okBackend, claudeText := downBackend,
      geminiText := downBackend,
      openaiImage := fun p =>
        if strContains p "Instagram" then .error "imgboom"
        else .ok "http://img.example/banner.png" }

/-- Gateway with openai credentials where both text and image clients
succeed. -/
def svcAllOk : AIService :=
  mkAIService
    { OPENAI_API_KEY := some "ok", CLAUDE_API_KEY := none, GEMINI_API_KEY := none }
    { openaiText := okBackend, claudeText := downBackend,
      geminiText := downBackend,
      openaiImage := fun _ => .ok "http://img.example/logo.png" }

/-- Gateway with no credentials at all. -/
def svcNone : AIService :=
  mkAIService
    { OPENAI_API_KEY := none, CLAUDE_API_KEY := none, GEMINI_API_KEY := none }
    { openaiText := okBackend, claudeText := okBackend,
      geminiText := okBackend, openaiImage := okBackend }

/-- A request value (as `request.dict()` hands it to the pipelines) whose
prompts mapping has both `business_name` and `industry`. -/
def reqFull : PyDict :=
  [("project_id", .str "p1"),
   ("generation_type", .str "social_media"),
   ("prompts", .obj [("business_name", .str "Acme"), ("industry", .str "Retail")]),
   ("options", .null)]

/-- A request whose prompts mapping lacks `business_name`. -/
def reqNoName : PyDict :=
  [("project_id", .str "p2"),
   ("generation_type", .str "brand_kit"),
   ("prompts", .obj [("industry", .str "Retail")]),
   ("options", .null)]

/-- The plain-text record the gateway produces for the fixed test reply. -/
def allGoodJson : Json :=
  .obj [("content", .str "All good"), ("type", .str "text_response")]

/-- The post entry built for one platform when the text client answers with
the fixed test reply. -/
def postEntry (platform : String) : Json :=
  .obj [("platform", .str platform), ("content", allGoodJson)]

/-- All four post entries of a fully successful posts loop. -/
def postsAllOk : List Json :=
  [postEntry "Facebook", postEntry "Instagram", postEntry "Twitter", postEntry "LinkedIn"]

/-- The Facebook banner entry produced by `svcBannerInstaFail`. -/
def bannerFacebook : Json :=
  .obj [("platform", .str "Facebook"),
        ("banner", .obj
          [("image_url", .str "http://img.example/banner.png"),
           ("description", .str "Professional social media banner for Acme on Facebook. Business in Retail industry."),
           ("style", .str "professional")])]

/-- A one-record store used to witness the unknown-identifier no-op. -/
def storeA : TaskStore :=
  [("a", { status := .PENDING, created_at := 0, result := none, error := none })]

/-- The prompts mapping of `reqFull`. -/
def promptsFull : PyDict :=
  [("business_name", .str "Acme"), ("industry", .str "Retail")]

/-- The context produced by merging `promptsFull` with the plain-text brand
identity record. -/
def ctxMergedFull : Json :=
  .obj [("business_name", .str "Acme"), ("industry", .str "Retail"),
        ("content", .str "All good"), ("type", .str "text_response")]

/-- The context produced by merging the name-less prompts mapping with the
plain-text brand identity record. -/
def ctxMergedNoName : Json :=
  .obj [("industry", .str "Retail"),
        ("content", .str "All good"), ("type", .str "text_response")]

/-- Exactly-one-of result/error shape of a terminal `update_task` call. -/
def terminalCall (u : UpdateCall) : Prop :=
  (u.status = .COMPLETED ∧ (∃ r, u.result = some r) ∧ u.error = none) ∨
  (u.status = .FAILED ∧ u.result = none ∧ (∃ e, u.error = some e))

/-- The task-record invariant of the spec: both payload fields null while
the status is non-terminal, result exactly when COMPLETED, error exactly
when FAILED. -/
def taskRecInv (rec : TaskRec) : Prop :=
  match rec.status with
  | .PENDING => rec.result = none ∧ rec.error = none
  | .PROCESSING => rec.result = none ∧ rec.error = none
  | .COMPLETED => (∃ r, rec.result = some r) ∧ rec.error = none
  | .FAILED => rec.result = none ∧ (∃ e, rec.error = some e)

/-- Well-behaved pipeline write sequence: the PROCESSING update followed by
exactly one terminal update (so nothing is written after the terminal
state), and along any replay of the run against any store the task's record
always exists and satisfies the invariant. -/
def pipelineRunOk (tr : List UpdateCall) : Prop :=
  ∃ term, tr = [processingCall, term] ∧ terminalCall term ∧
    ∀ (store : TaskStore) (id : String) (t : Nat),
      ∀ orec ∈ recordStates store id t tr, ∃ rec, orec = some rec ∧ taskRecInv rec

lemma dictLookup_dictSet_self {α : Type} (l : List (String × α)) (k : String) (v : α) :
    dictLookup (dictSet l k v) k = some v := by
  induction l with
  | nil => simp [dictSet, dictLookup]
  | cons hd tl ih =>
    obtain ⟨k0, v0⟩ := hd
    by_cases h : k0 = k
    · simp [dictSet, dictLookup, h]
    · simp [dictSet, dictLookup, h, ih]

lemma get_task_update_present (s : TaskStore) (id : String) (rec : TaskRec)
    (st : TaskStatus) (r : Option Json) (e : Option String)
    (h : dictLookup s id = some rec) :
    get_task (update_task s id st r e) id =
      some { rec with status := st, result := r, error := e } := by
  unfold update_task get_task
  rw [h]
  exact dictLookup_dictSet_self s id _

lemma recordStates_two (store : TaskStore) (id : String) (t : Nat)
    (u1 u2 : UpdateCall) :
    recordStates store id t [u1, u2] =
      [get_task (create_task store id t) id,
       get_task (update_task (create_task store id t) id u1.status u1.result u1.error) id,
       get_task (update_task
         (update_task (create_task store id t) id u1.status u1.result u1.error)
         id u2.status u2.result u2.error) id] := rfl

lemma pipelineWrap_states (store : TaskStore) (id : String) (t : Nat)
    (u2 : UpdateCall) :
    recordStates store id t [processingCall, u2] =
      [some { status := .PENDING, created_at := t, result := none, error := none },
       some { status := .PROCESSING, created_at := t, result := none, error := none },
       some { status := u2.status, created_at := t, result := u2.result, error := u2.error }] := by
  rw [recordStates_two]
  have h1 : get_task (create_task store id t) id =
      some { status := .PENDING, created_at := t, result := none, error := none } :=
    dictLookup_dictSet_self store id _
  have h2 := get_task_update_present (create_task store id t) id
    { status := .PENDING, created_at := t, result := none, error := none }
    .PROCESSING none none h1
  have h3 := get_task_update_present
    (update_task (create_task store id t) id .PROCESSING none none) id
    { status := .PROCESSING, created_at := t, result := none, error := none }
    u2.status u2.result u2.error h2
  simp only [processingCall] at h3 ⊢
  rw [h1, h2, h3]

lemma pipelineWrap_ok (body : Except String Json) :
    pipelineRunOk (pipelineWrap body) := by
  cases body with
  | ok r =>
    refine ⟨{ status := .COMPLETED, result := some r, error := none }, rfl,
      Or.inl ⟨rfl, ⟨r, rfl⟩, rfl⟩, ?_⟩
    intro store id t orec hmem
    rw [show pipelineWrap (.ok r) =
      [processingCall, { status := .COMPLETED, result := some r, error := none }] from rfl,
      pipelineWrap_states] at hmem
    simp only [List.mem_cons, List.not_mem_nil, or_false] at hmem
    rcases hmem with h | h | h
    · exact ⟨_, h, ⟨rfl, rfl⟩⟩
    · exact ⟨_, h, ⟨rfl, rfl⟩⟩
    · exact ⟨_, h, ⟨⟨r, rfl⟩, rfl⟩⟩
  | error e =>
    refine ⟨{ status := .FAILED, result := none, error := some e }, rfl,
      Or.inr ⟨rfl, rfl, ⟨e, rfl⟩⟩, ?_⟩
    intro store id t orec hmem
    rw [show pipelineWrap (.error e) =
      [processingCall, { status := .FAILED, result := none, error := some e }] from rfl,
      pipelineWrap_states] at hmem
    simp only [List.mem_cons, List.not_mem_nil, or_false] at hmem
    rcases hmem with h | h | h
    · exact ⟨_, h, ⟨rfl, rfl⟩⟩
    · exact ⟨_, h, ⟨rfl, rfl⟩⟩
    · exact ⟨_, h, ⟨rfl, ⟨e, rfl⟩⟩⟩

lemma exBind_ok {α β : Type} (a : α) (f : α → Except String β) :
    (Except.ok a >>= f) = f a := rfl

lemma exBind_error {α β : Type} (e : String) (f : α → Except String β) :
    ((Except.error e : Except String α) >>= f) = Except.error e := rfl

lemma exPure {α : Type} (a : α) : (pure a : Except String α) = Except.ok a := rfl

/-- Claim C8: for every task, `get_task` invoked immediately after
`create_task` on the identifier it inserted yields a record with
status PENDING, null result, null error and the creation timestamp;
`create_task` is a total operation, so it never fails. -/
theorem get_after_create_pending (store : TaskStore) (task_id : String) (t : Nat) :
    get_task (create_task store task_id t) task_id =
      some { status := .PENDING, created_at := t, result := none, error := none } :=
  dictLookup_dictSet_self store task_id _

/-- Claim C9: `update_task` on an identifier absent from the store leaves
the store's mapping entirely unchanged (in particular it creates no record)
and, being a total function, does not raise. -/
theorem update_unknown_id_noop (store : TaskStore) (task_id : String)
    (st : TaskStatus) (r : Option Json) (e : Option String)
    (h : get_task store task_id = none) :
    update_task store task_id st r e = store := by
  unfold get_task at h
  unfold update_task
  rw [h]

/-- Witness for C9 at a concrete store and unknown identifier. -/
theorem update_unknown_id_noop_witness :
    get_task storeA "b" = none ∧
    update_task storeA "b" .COMPLETED (some .null) none = storeA :=
  ⟨rfl, update_unknown_id_noop storeA "b" .COMPLETED (some .null) none rfl⟩

/-- Claim C5: with every text capability flag false, `generate_text`
deterministically fails with the distinct no-provider error ("Text
generation failed: No text generation models available"), and likewise
`generate_image` fails with its no-provider error when no image backend is
configured. -/
theorem no_provider_available_errors :
    (∀ (svc : AIService) (prompt : String) (context : Json),
      svc.available_models.openai_text = false →
      svc.available_models.claude_text = false →
      svc.available_models.gemini_text = false →
      generate_text svc prompt context =
        .error "Text generation failed: No text generation models available") ∧
    (∀ (svc : AIService) (description style : Json),
      svc.available_models.openai_image = false →
      svc.available_models.gemini_image = false →
      generate_image svc description style =
        .error "Image generation failed: No image generation models available") := by
  constructor
  · intro svc prompt context h1 h2 h3
    unfold generate_text
    rw [h1, h2, h3]
    rfl
  · intro svc description style h1 h2
    unfold generate_image
    rw [h1, h2]
    rfl

/-- Witness for C5 at the credential-less gateway. -/
theorem no_provider_available_errors_witness :
    generate_text svcNone "p" (.obj []) =
      .error "Text generation failed: No text generation models available" ∧
    generate_image svcNone (.str "d") (.str "professional") =
      .error "Image generation failed: No image generation models available" :=
  ⟨no_provider_available_errors.1 svcNone "p" (.obj []) rfl rfl rfl,
   no_provider_available_errors.2 svcNone (.str "d") (.str "professional") rfl rfl⟩

/-- Claim C6: every run of each of the four pipelines writes, after the
PENDING record created by `create_task`, exactly the PROCESSING update
followed by exactly one terminal update (COMPLETED with a result and no
error, or FAILED with an error and no result), nothing afterwards; at
every snapshot along the run the task record exists and satisfies the
exactly-one-of invariant. -/
theorem pipeline_task_record_invariant (svc : AIService) (req : PyDict)
    (now : String) :
    pipelineRunOk (process_brand_kit svc req now) ∧
    pipelineRunOk (process_social_media svc req now) ∧
    pipelineRunOk (process_website_content svc req now) ∧
    pipelineRunOk (process_business_plan svc req now) :=
  ⟨pipelineWrap_ok _, pipelineWrap_ok _, pipelineWrap_ok _, pipelineWrap_ok _⟩

/-- Claim C7 (amended): the gateway's response parsing returns the parsed
structured value whenever the stripped response text is valid JSON, and
otherwise wraps the STRIPPED text (not the raw text) as
content/text_response. -/
theorem parse_ai_response_spec (s : String) (v : Json) :
    (parseJson (pyStrip s) = some v → parse_ai_response s = v) ∧
    (parseJson (pyStrip s) = none →
      parse_ai_response s =
        .obj [("content", .str (pyStrip s)), ("type", .str "text_response")]) := by
  constructor
  · intro h
    unfold parse_ai_response
    rw [h]
  · intro h
    unfold parse_ai_response
    rw [h]

/-- Witness for C7 at a JSON response and a plain-text response. -/
theorem parse_ai_response_spec_witness :
    parse_ai_response " \x7b\"a\": 1\x7d " = .obj [("a", .num 1)] ∧
    parse_ai_response "Hello there" =
      .obj [("content", .str "Hello there"), ("type", .str "text_response")] :=
  ⟨(parse_ai_response_spec " \x7b\"a\": 1\x7d " (.obj [("a", .num 1)])).1 rfl,
   (parse_ai_response_spec "Hello there" .null).2 rfl⟩

/-- Counterexample for C7 as stated: for input " Hello there " the fallback
wrapper holds the stripped text "Hello there", not the raw text
" Hello there". -/
theorem parse_ai_response_raw_text_cex :
    parse_ai_response " Hello there " =
      .obj [("content", .str "Hello there"), ("type", .str "text_response")] ∧
    ¬ (parse_ai_response " Hello there " =
      .obj [("content", .str " Hello there"), ("type", .str "text_response")]) := by
  refine ⟨rfl, ?_⟩
  intro h
  rw [show parse_ai_response " Hello there " =
    .obj [("content", .str "Hello there"), ("type", .str "text_response")] from rfl] at h
  simp at h

/-- Claim C1 (amended): in the social_media pipeline a provider failure
while generating one platform's post text is NOT recorded per-platform: it
escapes the loop to the pipeline boundary, so when Facebook's call succeeds
and Instagram's fails the task is terminated FAILED with Instagram's error
and no posts list survives. -/
theorem social_media_platform_failure_aborts_batch
    (svc : AIService) (req kvs : PyDict) (now : String) (bn v : Json) (e : String)
    (hp : dictGetItem req "prompts" = .ok (.obj kvs))
    (hbn : dictLookup kvs "business_name" = some bn)
    (hfb : generate_text svc (socialPostPrompt "Facebook" bn)
        (.obj (dictSet kvs "platform" (.str "Facebook"))) = .ok v)
    (hin : generate_text svc (socialPostPrompt "Instagram" bn)
        (.obj (dictSet kvs "platform" (.str "Instagram"))) = .error e) :
    process_social_media svc req now =
      [processingCall, { status := .FAILED, result := none, error := some e }] := by
  unfold process_social_media socialMediaBody
  rw [hp]
  simp only [platforms, socialPostsLoop, Json.getItem, dictGetItem, starMerge1,
    hbn, hfb, hin, exBind_ok, exBind_error, exPure]
  rfl

/-- Witness for the amended C1 at a concrete gateway whose provider fails
exactly on the Instagram prompt. -/
theorem social_media_platform_failure_aborts_batch_witness :
    process_social_media svcInstaFail reqFull "T" =
      [processingCall,
       { status := .FAILED, result := none,
         error := some "Text generation failed: boom" }] :=
  social_media_platform_failure_aborts_batch svcInstaFail reqFull promptsFull "T"
    (.str "Acme") allGoodJson "Text generation failed: boom" rfl rfl rfl rfl

/-- Counterexample for C1 as stated: with Instagram's provider call failing
and all others succeeding, the run ends FAILED, not COMPLETED with four
platform entries. -/
theorem social_media_per_platform_error_capture_cex :
    process_social_media svcInstaFail reqFull "2024-01-01T00:00:00" =
      [processingCall,
       { status := .FAILED, result := none,
         error := some "Text generation failed: boom" }] ∧
    ¬ ∃ res, process_social_media svcInstaFail reqFull "2024-01-01T00:00:00" =
      [processingCall, { status := .COMPLETED, result := some res, error := none }] := by
  refine ⟨rfl, ?_⟩
  rintro ⟨res, h⟩
  rw [show process_social_media svcInstaFail reqFull "2024-01-01T00:00:00" =
    [processingCall,
     { status := .FAILED, result := none,
       error := some "Text generation failed: boom" }] from rfl] at h
  simp at h

/-- Claim C2 (amended): in the website_content pipeline a section failure is
NOT captured as that section's value: it escapes the loop, so a failure on
the first section (hero) terminates the task FAILED with that error — in
particular when every section's call fails the task is FAILED, with no
sections dict and no template_suggestions in any result. -/
theorem website_section_failure_aborts_run
    (svc : AIService) (req kvs : PyDict) (now : String) (e : String)
    (hp : dictGetItem req "prompts" = .ok (.obj kvs))
    (hhero : generate_text svc (sectionPrompt "hero")
        (.obj (dictSet kvs "section" (.str "hero"))) = .error e) :
    process_website_content svc req now =
      [processingCall, { status := .FAILED, result := none, error := some e }] := by
  unfold process_website_content websiteContentBody
  rw [hp]
  simp only [sections, websiteLoop, starMerge1, hhero,
    exBind_ok, exBind_error, exPure]
  rfl

/-- Witness for the amended C2 at a gateway whose text provider always
fails (so every section's call fails). -/
theorem website_section_failure_aborts_run_witness :
    process_website_content svcTextDown reqFull "T" =
      [processingCall,
       { status := .FAILED, result := none,
         error := some "Text generation failed: provider down" }] :=
  website_section_failure_aborts_run svcTextDown reqFull promptsFull "T"
    "Text generation failed: provider down" rfl rfl

/-- Counterexample for C2 as stated: with every section's provider call
failing the task is FAILED, not COMPLETED with five error-marked
sections. -/
theorem website_per_section_error_capture_cex :
    process_website_content svcTextDown reqFull "2024-01-01T00:00:00" =
      [processingCall,
       { status := .FAILED, result := none,
         error := some "Text generation failed: provider down" }] ∧
    ¬ ∃ res, process_website_content svcTextDown reqFull "2024-01-01T00:00:00" =
      [processingCall, { status := .COMPLETED, result := some res, error := none }] := by
  refine ⟨rfl, ?_⟩
  rintro ⟨res, h⟩
  rw [show process_website_content svcTextDown reqFull "2024-01-01T00:00:00" =
    [processingCall,
     { status := .FAILED, result := none,
       error := some "Text generation failed: provider down" }] from rfl] at h
  simp at h

/-- Claim C3 (amended): in the brand_kit pipeline with image generation
available, a failing logo step is caught locally, but no error marker is
recorded: the result's logo slot is simply null, and the task still reaches
COMPLETED with brand_identity and social_media populated. -/
theorem brand_kit_logo_failure_leaves_null_logo
    (svc : AIService) (req : PyDict) (prompts : Json) (now : String)
    (v1 v3 ctx2 : Json) (e : String)
    (himg : can_generate_images svc = true)
    (hp : dictGetItem req "prompts" = .ok prompts)
    (hbi : generate_text svc brandIdentityPrompt prompts = .ok v1)
    (hlogo : brandKitLogoStep svc prompts = .error e)
    (hmerge : starMerge2 prompts v1 = .ok ctx2)
    (hsoc : generate_text svc socialIdeasPrompt ctx2 = .ok v3) :
    process_brand_kit svc req now =
      [processingCall,
       { status := .COMPLETED,
         result := some (.obj [("brand_identity", v1), ("logo", .null),
           ("social_media", v3), ("generated_at", .str now)]),
         error := none }] := by
  unfold process_brand_kit brandKitBody
  rw [hp]
  simp only [himg, hbi, hlogo, hmerge, hsoc, optJson,
    exBind_ok, exBind_error, exPure, eq_self_iff_true, if_true, ite_true]
  rfl

/-- Witness for the amended C3 at a gateway whose image client always
fails. -/
theorem brand_kit_logo_failure_leaves_null_logo_witness :
    process_brand_kit svcImageDown reqFull "T" =
      [processingCall,
       { status := .COMPLETED,
         result := some (.obj [("brand_identity", allGoodJson), ("logo", .null),
           ("social_media", allGoodJson), ("generated_at", .str "T")]),
         error := none }] :=
  brand_kit_logo_failure_leaves_null_logo svcImageDown reqFull (.obj promptsFull)
    "T" allGoodJson allGoodJson ctxMergedFull
    "Image generation failed: provider down" rfl rfl rfl rfl rfl rfl

/-- Counterexample for C3 as stated: with the logo image call failing, the
completed result's logo slot is null — it does not carry an error
marker. -/
theorem brand_kit_logo_error_marker_cex :
    brandKitLogoStep svcImageDown (.obj promptsFull) =
      .error "Image generation failed: provider down" ∧
    process_brand_kit svcImageDown reqFull "2024-01-01T00:00:00" =
      [processingCall,
       { status := .COMPLETED,
         result := some (.obj [("brand_identity", allGoodJson), ("logo", .null),
           ("social_media", allGoodJson), ("generated_at", .str "2024-01-01T00:00:00")]),
         error := none }] :=
  ⟨rfl, rfl⟩

/-- Claim C4 (amended): in the social_media pipeline with image generation
available, a failing banner call aborts the banner loop; banners generated
before the failure are kept, no error entry is recorded anywhere in the
result, and the task reaches COMPLETED with the posts content intact. -/
theorem social_media_banner_failure_keeps_partial_banners
    (svc : AIService) (req : PyDict) (prompts : Json) (now : String)
    (posts bs : List Json) (e : String)
    (himg : can_generate_images svc = true)
    (hp : dictGetItem req "prompts" = .ok prompts)
    (hposts : socialPostsLoop svc prompts platforms = .ok posts)
    (hban : bannerLoop svc prompts [] platforms = (bs, some e)) :
    process_social_media svc req now =
      [processingCall,
       { status := .COMPLETED,
         result := some (.obj [("posts", .arr posts), ("banners", .arr bs),
           ("generated_at", .str now)]),
         error := none }] := by
  unfold process_social_media socialMediaBody
  rw [hp]
  simp only [himg, hposts, hban, exBind_ok, exPure,
    eq_self_iff_true, if_true, ite_true]
  rfl

/-- Witness for the amended C4 at a gateway whose image client fails
exactly on the Instagram banner description. -/
theorem social_media_banner_failure_keeps_partial_banners_witness :
    process_social_media svcBannerInstaFail reqFull "T" =
      [processingCall,
       { status := .COMPLETED,
         result := some (.obj [("posts", .arr postsAllOk),
           ("banners", .arr [bannerFacebook]), ("generated_at", .str "T")]),
         error := none }] :=
  social_media_banner_failure_keeps_partial_banners svcBannerInstaFail reqFull
    (.obj promptsFull) "T" postsAllOk [bannerFacebook]
    "Image generation failed: imgboom" rfl rfl rfl rfl

/-- Counterexample for C4 as stated: a banner failure on Instagram leaves
the completed result's banners list holding only the prior Facebook banner
entry — no error entry is recorded in the result. -/
theorem social_media_banner_error_entry_cex :
    (bannerLoop svcBannerInstaFail (.obj promptsFull) [] platforms).2 =
      some "Image generation failed: imgboom" ∧
    process_social_media svcBannerInstaFail reqFull "2024-01-01T00:00:00" =
      [processingCall,
       { status := .COMPLETED,
         result := some (.obj [("posts", .arr postsAllOk),
           ("banners", .arr [bannerFacebook]),
           ("generated_at", .str "2024-01-01T00:00:00")]),
         error := none }] :=
  ⟨rfl, rfl⟩

lemma getD_obj_ok (kvs : PyDict) (k : String) (d : Json) :
    Json.getD (.obj kvs) k d = .ok ((dictLookup kvs k).getD d) := by
  unfold Json.getD
  cases h : dictLookup kvs k with
  | none => simp [h]
  | some v => simp [h]

/-- Claim C10 (amended): the pipelines index the prompts mapping directly
with no defaulting, but not symmetrically. (1) social_media fails as the
claim says: with `business_name` absent the task is FAILED with the
KeyError text even with every provider healthy. (2) brand_kit does NOT:
its only direct prompt indexing sits inside the logo step's local handler,
so with image generation available and `business_name` absent the task
still reaches COMPLETED with a null logo slot. (3) The gateway's
system-prompt builder defaults every missing context field and never
raises on a dict context. -/
theorem prompts_key_errors_pipeline_level :
    (∀ (svc : AIService) (req kvs : PyDict) (now : String),
      dictGetItem req "prompts" = .ok (.obj kvs) →
      dictLookup kvs "business_name" = none →
      process_social_media svc req now =
        [processingCall,
         { status := .FAILED, result := none,
           error := some "\x27business_name\x27" }]) ∧
    (∀ (svc : AIService) (req kvs : PyDict) (now : String) (v1 v3 ctx2 : Json),
      can_generate_images svc = true →
      dictGetItem req "prompts" = .ok (.obj kvs) →
      dictLookup kvs "business_name" = none →
      generate_text svc brandIdentityPrompt (.obj kvs) = .ok v1 →
      starMerge2 (.obj kvs) v1 = .ok ctx2 →
      generate_text svc socialIdeasPrompt ctx2 = .ok v3 →
      process_brand_kit svc req now =
        [processingCall,
         { status := .COMPLETED,
           result := some (.obj [("brand_identity", v1), ("logo", .null),
             ("social_media", v3), ("generated_at", .str now)]),
           error := none }]) ∧
    (∀ (kvs : PyDict), ∃ s, build_system_prompt (.obj kvs) = .ok s) := by
  refine ⟨?_, ?_, ?_⟩
  · intro svc req kvs now hp hbn
    unfold process_social_media socialMediaBody
    rw [hp]
    simp only [platforms, socialPostsLoop, Json.getItem, dictGetItem, hbn,
      exBind_ok, exBind_error, exPure]
    rfl
  · intro svc req kvs now v1 v3 ctx2 himg hp hbn hbi hmerge hsoc
    have hstep : brandKitLogoStep svc (.obj kvs) =
        .error (keyErrorStr "business_name") := by
      unfold brandKitLogoStep
      simp only [Json.getItem, dictGetItem, hbn, exBind_error]
    unfold process_brand_kit brandKitBody
    rw [hp]
    simp only [himg, hbi, hstep, hmerge, hsoc, optJson,
      exBind_ok, exBind_error, exPure, eq_self_iff_true, if_true, ite_true]
    rfl
  · intro kvs
    simp only [build_system_prompt, getD_obj_ok, exBind_ok, exPure]
    exact ⟨_, rfl⟩

/-- Witness for the amended C10 at concrete runs with `business_name`
absent and every provider healthy. -/
theorem prompts_key_errors_pipeline_level_witness :
    process_social_media svcAllOk reqNoName "T2" =
      [processingCall,
       { status := .FAILED, result := none,
         error := some "\x27business_name\x27" }] ∧
    process_brand_kit svcAllOk reqNoName "T2" =
      [processingCall,
       { status := .COMPLETED,
         result := some (.obj [("brand_identity", allGoodJson), ("logo", .null),
           ("social_media", allGoodJson), ("generated_at", .str "T2")]),
         error := none }] ∧
    ∃ s, build_system_prompt (.obj []) = .ok s :=
  ⟨prompts_key_errors_pipeline_level.1 svcAllOk reqNoName
     [("industry", .str "Retail")] "T2" rfl rfl,
   prompts_key_errors_pipeline_level.2.1 svcAllOk reqNoName
     [("industry", .str "Retail")] "T2" allGoodJson allGoodJson ctxMergedNoName
     rfl rfl rfl rfl rfl rfl,
   prompts_key_errors_pipeline_level.2.2 []⟩

/-- Counterexample for C10 as stated: brand_kit with image generation
available and `business_name` missing (providers all healthy) reaches
COMPLETED, not FAILED. -/
theorem brand_kit_missing_business_name_completes_cex :
    can_generate_images svcAllOk = true ∧
    process_brand_kit svcAllOk reqNoName "2024-01-01T00:00:00" =
      [processingCall,
       { status := .COMPLETED,
         result := some (.obj [("brand_identity", allGoodJson), ("logo", .null),
           ("social_media", allGoodJson),
           ("generated_at", .str "2024-01-01T00:00:00")]),
         error := none }] ∧
    ¬ ∃ e, process_brand_kit svcAllOk reqNoName "2024-01-01T00:00:00" =
      [processingCall, { status := .FAILED, result := none, error := some e }] := by
  refine ⟨rfl, rfl, ?_⟩
  rintro ⟨e, h⟩
  rw [show process_brand_kit svcAllOk reqNoName "2024-01-01T00:00:00" =
    [processingCall,
     { status := .COMPLETED,
       result := some (.obj [("brand_identity", allGoodJson), ("logo", .null),
         ("social_media", allGoodJson),
         ("generated_at", .str "2024-01-01T00:00:00")]),
       error := none }] from rfl] at h
  simp at h

end EasyBiz
